import Mathlib

/-!
Verification of the natural-language specification of
`src/toil/jobStores/aws/file_info.py` against a shallow embedding of that file.

The embedding translates the control flow of `AWSFile`'s methods into pure Lean
functions.  External collaborators (the S3 client, the metadata domain, `hashlib`,
the local filesystem) enter as explicit parameters: the bytes a remote fetch
materializes, the version token an upload returns, the declared remote content
length, and a hash oracle standing for `hashlib` digests.  Python exceptions
become an explicit error type, attribute updates become record updates, and the
calls a method issues to the stores become explicit call lists.
-/

set_option maxRecDepth 8192

namespace Toil

/-- Byte sequences are lists of byte values. -/
abbrev Bytes := List Nat

/-- A hash oracle: given an algorithm name and the bytes fed through the hasher,
returns the hex digest string.  `hashlib` is external to the excerpt, so the
embedding is parametric in it. -/
abbrev HashFn := String → Bytes → String

/-- Python-level failures raised by the excerpt.  `checksumError` models
`ChecksumError` (the spec's ChecksumMismatch); `valueError` models the
`ValueError` raised by tuple unpacking of the result of `str.split`;
`assertionError` models `assert False` (the failure the spec names
EmptyOrCorruptRecord); `runtimeError` models `RuntimeError` (the failure the
spec names ProtocolViolation). -/
inductive PyErr where
  | checksumError (msg : String)
  | valueError
  | assertionError
  | runtimeError (msg : String)

/-- The `AWSFile` record (`__init__`, lines 40-83): `content` is the inlined
content, `version` the S3 version string (`none` when the file is new, `some ""`
the inlined sentinel, a non-empty string when a remote object exists), and
`previousVersion` the version observed at load time, used as the
optimistic-concurrency precondition in `delete`. -/
structure AWSFile where
  fileID : String
  ownerID : String
  encrypted : Bool
  content : Option Bytes
  numContentChunks : Nat
  checksum : Option String
  sseKeyPath : Option String
  version : Option String
  previousVersion : Option String

/-- Python `str.split(sep)` for a single-character separator, over the character
list: splits at every occurrence of `sep`. -/
def pySplitAux (sep : Char) : List Char → List Char → List String
  | [], acc => [String.mk acc.reverse]
  | c :: rest, acc =>
    if c = sep then String.mk acc.reverse :: pySplitAux sep rest []
    else pySplitAux sep rest (c :: acc)

/-- Python `s.split(sep)` for a one-character separator. -/
def pySplit (s : String) (sep : Char) : List String :=
  pySplitAux sep s.data []

/-- Python tuple unpacking `a, b = xs`: succeeds only on exactly two elements,
otherwise raises `ValueError`. -/
def unpack2 : List String → Except PyErr (String × String)
  | [a, b] => Except.ok (a, b)
  | _ => Except.error PyErr.valueError

/-- The checksum-splitting step `algorithm, rest = checksum.split('$')` performed
at `download` (line 168) and at `HashingPipe.transform` (line 203). -/
def checksumSplit (checksum : String) : Except PyErr (String × String) :=
  unpack2 (pySplit checksum '$')

/-- Modelled from the spec: `toil.lib.checksum.compute_checksum_for_file` is not
under src.  Per the spec's ChecksumCodec it streams the file's bytes through the
named hash algorithm (sha256 when no algorithm is passed) and formats the result
as the algorithm name, a dollar sign, and the hex digest; `download` compares its
result against the full recorded checksum string, and `HashingPipe.transform`
assembles the same format by hand at line 218. -/
def computeChecksumForFile (hasher : HashFn) (fileBytes : Bytes)
    (algorithm : String) : String :=
  algorithm ++ "$" ++ hasher algorithm fileBytes

/-- Error message raised by `download` on a checksum mismatch (lines 171-172). -/
def mismatchMsg (localFilePath expected actual : String) : String :=
  "Checksum mismatch for file " ++ localFilePath ++ ". Expected: " ++ expected ++
    " Actual: " ++ actual

/-- `AWSFile.upload` (lines 85-97): sets `checksum` to the computed checksum of
the local file when `calculateChecksum` (else to `None`) and sets `version` to
the token returned by `uploadFromPath`.  No other attribute is assigned.  The
local file's bytes and the store's returned token are explicit parameters. -/
def upload (hasher : HashFn) (f : AWSFile) (localFileBytes : Bytes)
    (versionToken : String) (calculateChecksum : Bool) : AWSFile :=
  { f with
    checksum :=
      if calculateChecksum then
        some (computeChecksumForFile hasher localFileBytes "sha256")
      else none,
    version := some versionToken }

/-- `AWSFile.uploadStream` exit protocol (lines 99-109): after the caller's scope
exits normally, raises `RuntimeError` unless the pipe's reader side ran to
completion (`pipe.reader_done`). -/
def uploadStream (readerDone : Bool) : Except PyErr Unit :=
  if readerDone then Except.ok ()
  else Except.error (PyErr.runtimeError
    "Escaped context manager without written data being read!")

/-- Store call issued by `AWSFile.copyTo`: a direct put of the inlined bytes, or
a server-side copy pinned at the source version. -/
inductive CopyToAction where
  | putInline (bytes : Bytes)
  | serverSideCopy (srcVersion : String)

/-- `AWSFile.copyTo` (lines 132-153): puts inlined content directly, or
server-side copies the pinned remote version, or hits the defensive
`assert False`. -/
def copyTo (f : AWSFile) : Except PyErr CopyToAction :=
  match f.content with
  | some c => Except.ok (CopyToAction.putInline c)
  | none =>
    match f.version with
    | none => Except.error PyErr.assertionError
    | some v =>
      if v = "" then Except.error PyErr.assertionError
      else Except.ok (CopyToAction.serverSideCopy v)

/-- `AWSFile.download` (lines 155-176): publishes the inlined content directly;
otherwise fetches the pinned remote version (`remoteData` stands for the bytes
the store materializes at the temp path) and, when `verifyChecksum` and a truthy
checksum are present, re-hashes the local file and raises `ChecksumError` on
disagreement; a record with neither hits `assert False`.  Returns the bytes held
by `localFilePath` on success. -/
def download (hasher : HashFn) (f : AWSFile) (remoteData : Bytes)
    (localFilePath : String) (verifyChecksum : Bool) : Except PyErr Bytes :=
  match f.content with
  | some c => Except.ok c
  | none =>
    match f.version with
    | none => Except.error PyErr.assertionError
    | some v =>
      if v = "" then Except.error PyErr.assertionError
      else
        match f.checksum, verifyChecksum with
        | some cs, true =>
          if cs = "" then Except.ok remoteData
          else
            match checksumSplit cs with
            | Except.error e => Except.error e
            | Except.ok (alg, _) =>
              let computed := computeChecksumForFile hasher remoteData alg
              if cs = computed then Except.ok remoteData
              else Except.error
                (PyErr.checksumError (mismatchMsg localFilePath cs computed))
        | _, _ => Except.ok remoteData

/-- Outcome of driving a (possibly verifying) download stream from the consumer
side: the bytes successfully forwarded downstream, the terminal result of the
driving stage, and whether the end-of-stream digest comparison ran. -/
structure TOut where
  delivered : Bytes
  result : Except PyErr Unit
  verified : Bool

/-- End-of-input step of `HashingPipe.transform` (lines 215-219): finalize the
digest and raise `ChecksumError` with an empty message unless the formatted
digest equals the recorded checksum. -/
def finishTransform (hasher : HashFn) (alg cs : String)
    (delivered hashed : Bytes) : TOut :=
  { delivered := delivered,
    result :=
      if alg ++ "$" ++ hasher alg hashed = cs then Except.ok ()
      else Except.error (PyErr.checksumError ""),
    verified := true }

/-- Chunked loop of `HashingPipe.transform` (lines 205-219): reads chunks until
an empty read (end of stream), updating the hash and then forwarding each chunk
downstream.  `budget` models the consumer: `some n` means the consumer accepts
`n` more writes and the following write raises `BrokenPipeError`, which the loop
catches and returns from silently; `none` means the consumer reads to end of
stream. -/
def transformGo (hasher : HashFn) (alg cs : String) :
    List Bytes → Option Nat → Bytes → Bytes → TOut
  | [], _, delivered, hashed => finishTransform hasher alg cs delivered hashed
  | c :: rest, budget, delivered, hashed =>
    if c = [] then finishTransform hasher alg cs delivered hashed
    else
      match budget with
      | some 0 => { delivered := delivered, result := Except.ok (), verified := false }
      | some (n + 1) =>
        transformGo hasher alg cs rest (some n) (delivered ++ c) (hashed ++ c)
      | none => transformGo hasher alg cs rest none (delivered ++ c) (hashed ++ c)

/-- `HashingPipe.transform` (lines 202-220): splits the recorded checksum to
recover the algorithm (the tuple unpacking may raise `ValueError`), then hashes
and forwards the chunks. -/
def HashingPipe.transform (hasher : HashFn) (checksum : String)
    (chunks : List Bytes) (budget : Option Nat) : TOut :=
  match checksumSplit checksum with
  | Except.error e => { delivered := [], result := Except.error e, verified := false }
  | Except.ok (alg, _) => transformGo hasher alg checksum chunks budget [] []

/-- `DownloadPipe.writeTo` (lines 183-191): writes the inlined content in a
single write, or streams the pinned remote version (`remoteChunks` stands for
the chunk sequence the consumer-side reads observe), or hits `assert False`. -/
def DownloadPipe.writeTo (f : AWSFile) (remoteChunks : List Bytes) :
    Except PyErr (List Bytes) :=
  match f.content with
  | some c => Except.ok (if c = [] then [] else [c])
  | none =>
    match f.version with
    | none => Except.error PyErr.assertionError
    | some v =>
      if v = "" then Except.error PyErr.assertionError else Except.ok remoteChunks

/-- Consumption of the raw (unverified) readable end: the consumer reads
`budget` chunks (or all of them) and no verification stage exists. -/
def rawRead (chunks : List Bytes) : Option Nat → TOut
  | some n =>
    { delivered := (chunks.take n).flatten, result := Except.ok (), verified := false }
  | none => { delivered := chunks.flatten, result := Except.ok (), verified := false }

/-- `AWSFile.downloadStream` (lines 178-229): sources the pipe from the inlined
content or the remote version; when `verifyChecksum` and a truthy checksum are
present, the `HashingPipe` is interposed between the source and the consumer,
otherwise the consumer reads the raw pipe. -/
def downloadStream (hasher : HashFn) (f : AWSFile) (remoteChunks : List Bytes)
    (budget : Option Nat) (verifyChecksum : Bool) : Except PyErr TOut :=
  match DownloadPipe.writeTo f remoteChunks with
  | Except.error e => Except.error e
  | Except.ok chunks =>
    match f.checksum, verifyChecksum with
    | some cs, true =>
      if cs = "" then Except.ok (rawRead chunks budget)
      else Except.ok (HashingPipe.transform hasher cs chunks budget)
    | _, _ => Except.ok (rawRead chunks budget)

/-- Calls issued by `AWSFile.delete` (lines 231-240): each metadata delete is
the pair of the item name and the expected previous version passed to
`delete_attributes`; each object-store delete is the key and version passed to
`delete_object`. -/
structure DeleteCalls where
  metadataDeletes : List (String × String)
  s3Deletes : List (String × String)

/-- `AWSFile.delete`: a conditional metadata delete when `previousVersion` is
not `None`, and additionally a versioned object delete when it is also
non-empty. -/
def delete (f : AWSFile) : DeleteCalls :=
  match f.previousVersion with
  | none => { metadataDeletes := [], s3Deletes := [] }
  | some pv =>
    { metadataDeletes := [(f.fileID, pv)],
      s3Deletes := if pv = "" then [] else [(f.fileID, pv)] }

/-- `AWSFile.getSize` (lines 242-252): length of the inlined content, else the
remote object's declared content length, else 0. -/
def getSize (f : AWSFile) (remoteContentLength : Nat) : Nat :=
  match f.content with
  | some c => c.length
  | none =>
    match f.version with
    | none => 0
    | some v => if v = "" then 0 else remoteContentLength

/-- Concrete hash oracle for witnesses: the digest is the printed byte list
(injective, and never contains a dollar sign). -/
def demoHash (_algorithm : String) (bytes : Bytes) : String := toString bytes

/-- Base fixture record: a fresh file with no content, checksum or version. -/
def baseFile : AWSFile :=
  { fileID := "fid", ownerID := "oid", encrypted := false, content := none,
    numContentChunks := 0, checksum := none, sseKeyPath := none,
    version := none, previousVersion := none }

/-- Splitting a separator-free character list yields the single accumulated
piece. -/
lemma pySplitAux_of_not_mem (sep : Char) (l : List Char) :
    ∀ acc : List Char, sep ∉ l →
      pySplitAux sep l acc = [String.mk (acc.reverse ++ l)] := by
  induction l with
  | nil => intro acc _; simp [pySplitAux]
  | cons c rest ih =>
    intro acc h
    have hc : ¬(c = sep) := fun he => h (he ▸ List.mem_cons_self _ _)
    have hr : sep ∉ rest := fun hm => h (List.mem_cons_of_mem _ hm)
    simp only [pySplitAux, if_neg hc]
    rw [ih (c :: acc) hr]
    simp

/-- Splitting past the first separator occurrence emits the accumulated piece
and continues on the remainder. -/
lemma pySplitAux_append (sep : Char) (a : List Char) :
    ∀ (acc rest : List Char), sep ∉ a →
      pySplitAux sep (a ++ sep :: rest) acc =
        String.mk (acc.reverse ++ a) :: pySplitAux sep rest [] := by
  induction a with
  | nil =>
    intro acc rest _
    simp [pySplitAux]
  | cons c a' ih =>
    intro acc rest h
    have hc : ¬(c = sep) := fun he => h (he ▸ List.mem_cons_self _ _)
    have ha : sep ∉ a' := fun hm => h (List.mem_cons_of_mem _ hm)
    simp only [List.cons_append, pySplitAux, if_neg hc]
    show pySplitAux sep (a' ++ sep :: rest) (c :: acc) = _
    rw [ih (c :: acc) rest ha]
    simp

/-- A checksum with exactly one separator splits into its two pieces. -/
lemma checksumSplit_ok (a b : String) (ha : '$' ∉ a.data) (hb : '$' ∉ b.data) :
    checksumSplit (a ++ "$" ++ b) = Except.ok (a, b) := by
  have hdata : (a ++ "$" ++ b).data = a.data ++ '$' :: b.data := by
    rw [String.data_append, String.data_append]
    show a.data ++ ['$'] ++ b.data = a.data ++ '$' :: b.data
    simp
  unfold checksumSplit pySplit
  rw [hdata, pySplitAux_append '$' a.data [] b.data ha,
    pySplitAux_of_not_mem '$' b.data [] hb]
  simp [unpack2]

/-- A checksum with no separator fails the two-name unpacking. -/
lemma checksumSplit_no_sep (s : String) (h : '$' ∉ s.data) :
    checksumSplit s = Except.error PyErr.valueError := by
  unfold checksumSplit pySplit
  rw [pySplitAux_of_not_mem '$' s.data [] h]
  simp [unpack2]

/-- A checksum with two separators also fails the two-name unpacking. -/
lemma checksumSplit_two_seps (a b c : String)
    (ha : '$' ∉ a.data) (hb : '$' ∉ b.data) (hc : '$' ∉ c.data) :
    checksumSplit (a ++ "$" ++ b ++ "$" ++ c) = Except.error PyErr.valueError := by
  have hdata : (a ++ "$" ++ b ++ "$" ++ c).data =
      a.data ++ '$' :: (b.data ++ '$' :: c.data) := by
    rw [String.data_append, String.data_append, String.data_append,
      String.data_append]
    show a.data ++ ['$'] ++ b.data ++ ['$'] ++ c.data =
      a.data ++ '$' :: (b.data ++ '$' :: c.data)
    simp
  unfold checksumSplit pySplit
  rw [hdata, pySplitAux_append '$' a.data [] (b.data ++ '$' :: c.data) ha,
    pySplitAux_append '$' b.data [] c.data hb,
    pySplitAux_of_not_mem '$' c.data [] hc]
  simp [unpack2]

/-- Running the transform loop with a consumer that reads to end of stream
delivers every chunk and ends in the digest comparison. -/
lemma transformGo_none_eq (hasher : HashFn) (alg cs : String)
    (chunks : List Bytes) :
    ∀ delivered hashed : Bytes, (∀ c ∈ chunks, c ≠ []) →
      transformGo hasher alg cs chunks none delivered hashed =
        finishTransform hasher alg cs (delivered ++ chunks.flatten)
          (hashed ++ chunks.flatten) := by
  induction chunks with
  | nil => intro d hs _; simp [transformGo]
  | cons c rest ih =>
    intro d hs hne
    have hc : ¬(c = []) := hne c (List.mem_cons_self _ _)
    have hr : ∀ x ∈ rest, x ≠ [] := fun x hx => hne x (List.mem_cons_of_mem _ hx)
    simp only [transformGo, if_neg hc]
    rw [ih (d ++ c) (hs ++ c) hr]
    simp [List.append_assoc]

/-- Running the transform loop with a consumer that accepts only `n` of more
than `n` writes stops silently at the failed write: the result is success, no
digest comparison runs, and exactly the first `n` chunks were forwarded. -/
lemma transformGo_some_eq (hasher : HashFn) (alg cs : String) :
    ∀ (chunks : List Bytes) (n : Nat) (delivered hashed : Bytes),
      (∀ c ∈ chunks, c ≠ []) → n < chunks.length →
      transformGo hasher alg cs chunks (some n) delivered hashed =
        { delivered := delivered ++ (chunks.take n).flatten,
          result := Except.ok (), verified := false } := by
  intro chunks
  induction chunks with
  | nil => intro n d hs _ hn; simp at hn
  | cons c rest ih =>
    intro n d hs hne hn
    have hc : ¬(c = []) := hne c (List.mem_cons_self _ _)
    cases n with
    | zero => simp [transformGo, hc]
    | succ m =>
      have hr : ∀ x ∈ rest, x ≠ [] := fun x hx => hne x (List.mem_cons_of_mem _ hx)
      have hm : m < rest.length := by
        have := hn
        simp only [List.length_cons] at this
        exact Nat.lt_of_succ_lt_succ this
      simp only [transformGo, if_neg hc]
      rw [ih m (d ++ c) (hs ++ c) hr hm]
      simp [List.append_assoc]

/-- The full verifying transform over a source read to end of stream delivers
the concatenated source bytes and performs the digest comparison. -/
lemma transform_none_eq (hasher : HashFn) (cs alg dg : String)
    (chunks : List Bytes)
    (hsplit : checksumSplit cs = Except.ok (alg, dg))
    (hne : ∀ c ∈ chunks, c ≠ []) :
    HashingPipe.transform hasher cs chunks none =
      { delivered := chunks.flatten,
        result :=
          if alg ++ "$" ++ hasher alg chunks.flatten = cs then Except.ok ()
          else Except.error (PyErr.checksumError ""),
        verified := true } := by
  unfold HashingPipe.transform
  rw [hsplit]
  show transformGo hasher alg cs chunks none [] [] = _
  rw [transformGo_none_eq hasher alg cs chunks [] [] hne]
  simp [finishTransform]

/-- A verified download stream over the remote path reduces to the hashing
transform over the remote chunks. -/
lemma downloadStream_remote_verified (hasher : HashFn) (f : AWSFile)
    (chunks : List Bytes) (v cs : String) (budget : Option Nat)
    (hc : f.content = none) (hv : f.version = some v) (hv' : ¬(v = ""))
    (hcs : f.checksum = some cs) (hcs' : ¬(cs = "")) :
    downloadStream hasher f chunks budget true =
      Except.ok (HashingPipe.transform hasher cs chunks budget) := by
  unfold downloadStream DownloadPipe.writeTo
  rw [hc, hv, hcs]
  simp [hv', hcs']

/-- A verified download stream over the inline path reduces to the hashing
transform over the single inline write. -/
lemma downloadStream_inline_verified (hasher : HashFn) (f : AWSFile) (c : Bytes)
    (cs : String) (chunks : List Bytes) (budget : Option Nat)
    (hc : f.content = some c) (hcs : f.checksum = some cs) (hcs' : ¬(cs = "")) :
    downloadStream hasher f chunks budget true =
      Except.ok (HashingPipe.transform hasher cs
        (if c = [] then [] else [c]) budget) := by
  unfold downloadStream DownloadPipe.writeTo
  rw [hc, hcs]
  simp [hcs']

/-- Fixture for the C1 counterexample: inlined content whose hash disagrees with
the recorded checksum. -/
def c1File : AWSFile :=
  { baseFile with
    content := some [104], checksum := some "sha256$bogus",
    version := some "v1" }

/-- C1: counterexample.  On a record with inlined content whose hash disagrees
with the recorded checksum, `download` with `verifyChecksum = true` succeeds
instead of failing with a checksum mismatch: verification is skipped on the
inline path, so the claim's "regardless of whether the record's bytes come from
inlineContent or from the remote version" is false. -/
theorem C1_counterexample :
    download demoHash c1File [9] "p" true = Except.ok [104] ∧
    ¬("sha256" ++ "$" ++ demoHash "sha256" [104] = "sha256$bogus") :=
  ⟨rfl, by decide⟩

/-- C1 (amended): checksum verification in `download` applies only on the
remote-version path.  With inlined content, `download` publishes those bytes
with no verification and succeeds; on the remote path with a recorded truthy
checksum, it fails with the checksum-mismatch error exactly when the recorded
checksum disagrees with the recomputed checksum of the fetched bytes, and on
success the destination holds exactly the fetched bytes. -/
theorem C1_download_verification (hasher : HashFn) (f : AWSFile)
    (remoteData : Bytes) (p : String) :
    (∀ c, f.content = some c → download hasher f remoteData p true = Except.ok c) ∧
    (∀ v cs alg dg, f.content = none → f.version = some v → ¬(v = "") →
      f.checksum = some cs → ¬(cs = "") →
      checksumSplit cs = Except.ok (alg, dg) →
      ¬(cs = computeChecksumForFile hasher remoteData alg) →
      download hasher f remoteData p true =
        Except.error (PyErr.checksumError
          (mismatchMsg p cs (computeChecksumForFile hasher remoteData alg)))) ∧
    (∀ v cs alg dg, f.content = none → f.version = some v → ¬(v = "") →
      f.checksum = some cs → ¬(cs = "") →
      checksumSplit cs = Except.ok (alg, dg) →
      cs = computeChecksumForFile hasher remoteData alg →
      download hasher f remoteData p true = Except.ok remoteData) := by
  refine ⟨?_, ?_, ?_⟩
  · intro c hc
    simp [download, hc]
  · intro v cs alg dg hc hv hv' hcs hcs' hsplit hmis
    simp [download, hc, hv, hv', hcs, hcs', hsplit, hmis]
  · intro v cs alg dg hc hv hv' hcs hcs' hsplit heq
    have h1 : download hasher f remoteData p true =
        if cs = computeChecksumForFile hasher remoteData alg then
          Except.ok remoteData
        else Except.error (PyErr.checksumError
          (mismatchMsg p cs (computeChecksumForFile hasher remoteData alg))) := by
      simp [download, hc, hv, hv', hcs, hcs', hsplit]
    rw [h1, if_pos heq]

/-- Fixture for the C1 witness: inline branch. -/
def c1wInline : AWSFile := { baseFile with content := some [5] }

/-- Fixture for the C1 witness: remote branch with a mismatching checksum. -/
def c1wRemote : AWSFile :=
  { baseFile with version := some "v1", checksum := some "sha256$zz" }

/-- C1: witness for both amended branches at concrete records. -/
theorem C1_witness :
    download demoHash c1wInline [7] "p" true = Except.ok [5] ∧
    download demoHash c1wRemote [7] "p" true =
      Except.error (PyErr.checksumError
        (mismatchMsg "p" "sha256$zz"
          (computeChecksumForFile demoHash [7] "sha256"))) :=
  ⟨(C1_download_verification demoHash c1wInline [7] "p").1 [5] rfl,
   (C1_download_verification demoHash c1wRemote [7] "p").2.1 "v1" "sha256$zz"
     "sha256" "zz" rfl rfl (by decide) rfl (by decide) rfl (by decide)⟩

/-- Bytes of the ASCII string hello. -/
def helloBytes : Bytes := [104, 101, 108, 108, 111]

/-- Bytes of the ASCII string hellx (one corrupted byte). -/
def hellxBytes : Bytes := [104, 101, 108, 108, 120]

/-- Fixture for C2: a record whose checksum is the digest of hello and whose
content lives remotely under version v1. -/
def c2File : AWSFile :=
  { baseFile with
    version := some "v1",
    checksum := some ("sha256" ++ "$" ++ demoHash "sha256" helloBytes) }

/-- C2: counterexample.  Over the corrupted source the stream does fail with the
checksum error at end of stream, but the error carries only the empty message —
the code raises `ChecksumError` applied to the empty string — so it does not
carry the expected and actual digest values, which are both non-empty. -/
theorem C2_counterexample :
    downloadStream demoHash c2File [hellxBytes] none true =
      Except.ok { delivered := hellxBytes,
                  result := Except.error (PyErr.checksumError ""),
                  verified := true } ∧
    ¬(demoHash "sha256" helloBytes = "") ∧
    ¬(demoHash "sha256" hellxBytes = "") :=
  ⟨rfl, by decide, by decide⟩

/-- C2 (amended): over a remote source read to end of stream with verification,
the consumer receives exactly the source bytes; the stream succeeds when the
recorded checksum matches the recomputed digest and fails with the checksum
error — carrying an empty message rather than the expected and actual digest
values — when it does not. -/
theorem C2_stream_verification (hasher : HashFn) (f : AWSFile)
    (chunks : List Bytes) (v cs alg dg : String)
    (hc : f.content = none) (hv : f.version = some v) (hv' : ¬(v = ""))
    (hcs : f.checksum = some cs) (hcs' : ¬(cs = ""))
    (hsplit : checksumSplit cs = Except.ok (alg, dg))
    (hne : ∀ c ∈ chunks, c ≠ []) :
    downloadStream hasher f chunks none true =
      Except.ok { delivered := chunks.flatten,
                  result :=
                    if alg ++ "$" ++ hasher alg chunks.flatten = cs then
                      Except.ok ()
                    else Except.error (PyErr.checksumError ""),
                  verified := true } := by
  rw [downloadStream_remote_verified hasher f chunks v cs none hc hv hv' hcs hcs']
  rw [transform_none_eq hasher cs alg dg chunks hsplit hne]

/-- C2: witness — the good source delivers the bytes with no error; the
corrupted source fails with the empty-message checksum error. -/
theorem C2_witness :
    downloadStream demoHash c2File [helloBytes] none true =
      Except.ok { delivered := helloBytes, result := Except.ok (),
                  verified := true } ∧
    downloadStream demoHash c2File [hellxBytes] none true =
      Except.ok { delivered := hellxBytes,
                  result := Except.error (PyErr.checksumError ""),
                  verified := true } := by
  constructor
  · have h := C2_stream_verification demoHash c2File [helloBytes] "v1"
      ("sha256" ++ "$" ++ demoHash "sha256" helloBytes) "sha256"
      (demoHash "sha256" helloBytes) rfl rfl (by decide) rfl (by decide) rfl
      (by decide)
    exact h.trans rfl
  · have h := C2_stream_verification demoHash c2File [hellxBytes] "v1"
      ("sha256" ++ "$" ++ demoHash "sha256" helloBytes) "sha256"
      (demoHash "sha256" helloBytes) rfl rfl (by decide) rfl (by decide) rfl
      (by decide)
    exact h.trans rfl

/-- C3: `delete` issues the conditional metadata delete (expecting
`previousVersion`) exactly when `previousVersion` is non-null, and exactly one
object-store versioned delete exactly when it is a non-empty string; an
inlined-only record (empty-string sentinel) gets the metadata delete and zero
object-store deletes, and a null `previousVersion` gets neither. -/
theorem C3_delete_calls (f : AWSFile) :
    ((delete f).metadataDeletes.length = 1 ↔ f.previousVersion ≠ none) ∧
    ((delete f).s3Deletes.length = 1 ↔
      ∃ v, f.previousVersion = some v ∧ v ≠ "") ∧
    (f.previousVersion = some "" →
      delete f = { metadataDeletes := [(f.fileID, "")], s3Deletes := [] }) ∧
    (f.previousVersion = none →
      delete f = { metadataDeletes := [], s3Deletes := [] }) := by
  match hf : f.previousVersion with
  | none => simp [delete, hf]
  | some pv =>
    by_cases hpv : pv = ""
    · subst hpv
      simp [delete, hf]
    · simp [delete, hf, hpv]

/-- Fixture for the C3 witness: inlined-sentinel previous version. -/
def c3aFile : AWSFile := { baseFile with previousVersion := some "" }

/-- Fixture for the C3 witness: real previous version token. -/
def c3bFile : AWSFile := { baseFile with previousVersion := some "v7" }

/-- C3: witness at the inlined sentinel and at a real version token. -/
theorem C3_witness :
    delete c3aFile = { metadataDeletes := [("fid", "")], s3Deletes := [] } ∧
    (delete c3bFile).s3Deletes.length = 1 :=
  ⟨(C3_delete_calls c3aFile).2.2.1 rfl,
   ((C3_delete_calls c3bFile).2.1).mpr ⟨"v7", rfl, by decide⟩⟩

/-- Fixture for the C4 counterexample: a record with inlined content. -/
def c4File : AWSFile :=
  { baseFile with
    content := some [1, 2], checksum := some "old",
    version := some "v0" }

/-- C4: counterexample.  `upload` does not clear the inlined content: on a
record whose content is set, the content is still set (not null) after `upload`
returns, contradicting the claimed clearing of `inlineContent`. -/
theorem C4_counterexample :
    (upload demoHash c4File [5] "v9" true).content = some [1, 2] ∧
    ¬((some [1, 2] : Option Bytes) = none) :=
  ⟨rfl, by decide⟩

/-- C4 (amended): after `upload`, `version` equals the token returned by the
store's upload call and `checksum` is the computed checksum of the local file
when `calculateChecksum` is true (null when false); `content` is left unchanged
rather than cleared, and every other field is unchanged. -/
theorem C4_upload_frame (hasher : HashFn) (f : AWSFile) (bs : Bytes)
    (tok : String) :
    (upload hasher f bs tok true).version = some tok ∧
    (upload hasher f bs tok false).version = some tok ∧
    (upload hasher f bs tok true).checksum =
      some (computeChecksumForFile hasher bs "sha256") ∧
    (upload hasher f bs tok false).checksum = none ∧
    (upload hasher f bs tok true).content = f.content ∧
    (upload hasher f bs tok false).content = f.content ∧
    (upload hasher f bs tok true).fileID = f.fileID ∧
    (upload hasher f bs tok true).ownerID = f.ownerID ∧
    (upload hasher f bs tok true).encrypted = f.encrypted ∧
    (upload hasher f bs tok true).numContentChunks = f.numContentChunks ∧
    (upload hasher f bs tok true).sseKeyPath = f.sseKeyPath ∧
    (upload hasher f bs tok true).previousVersion = f.previousVersion := by
  simp [upload]

/-- C5: with verification interposed, if the downstream consumer closes its end
after accepting `n` of more-than-`n` chunk writes — so the next forwarding write
fails with the broken-pipe condition — the transform terminates silently: the
result is success (neither a checksum error nor any other error), no final
digest comparison is performed, and exactly the accepted chunks were
forwarded. -/
theorem C5_early_termination (hasher : HashFn) (cs alg dg : String)
    (chunks : List Bytes) (n : Nat)
    (hsplit : checksumSplit cs = Except.ok (alg, dg))
    (hne : ∀ c ∈ chunks, c ≠ []) (hn : n < chunks.length) :
    HashingPipe.transform hasher cs chunks (some n) =
      { delivered := (chunks.take n).flatten,
        result := Except.ok (), verified := false } := by
  unfold HashingPipe.transform
  rw [hsplit]
  show transformGo hasher alg cs chunks (some n) [] [] = _
  rw [transformGo_some_eq hasher alg cs chunks n [] [] hne hn]
  simp

/-- C5: witness — a consumer accepting one of three chunks stops the transform
silently with only that chunk forwarded. -/
theorem C5_witness :
    HashingPipe.transform demoHash "sha256$zz" [[1], [2], [3]] (some 1) =
      { delivered := [1], result := Except.ok (), verified := false } := by
  have h := C5_early_termination demoHash "sha256$zz" "sha256" "zz"
    [[1], [2], [3]] 1 rfl (by decide) (by decide)
  exact h.trans rfl

/-- C6: counterexample.  The code unpacks the result of the split into exactly
two names, so a checksum whose digest part itself contains a dollar separator
does not parse to the pair of the algorithm and the rest; it raises the
unpacking `ValueError` instead. -/
theorem C6_counterexample :
    checksumSplit "sha256$ab$cd" = Except.error PyErr.valueError ∧
    ¬(checksumSplit "sha256$ab$cd" = Except.ok ("sha256", "ab$cd")) :=
  ⟨rfl, fun h => by
    rw [show checksumSplit "sha256$ab$cd" = Except.error PyErr.valueError
      from rfl] at h
    exact Except.noConfusion h⟩

/-- C6 (amended): parsing splits on every dollar separator and then requires
exactly two pieces.  A string of the form a$b with no separator inside a or b
parses to (a, b); a string with no separator fails with the same generic
unpacking `ValueError` (no distinct MalformedChecksum error exists in the code),
and so does a string with two separators. -/
theorem C6_split_behavior (a b c s : String)
    (ha : '$' ∉ a.data) (hb : '$' ∉ b.data) (hc : '$' ∉ c.data)
    (hs : '$' ∉ s.data) :
    checksumSplit (a ++ "$" ++ b) = Except.ok (a, b) ∧
    checksumSplit s = Except.error PyErr.valueError ∧
    checksumSplit (a ++ "$" ++ b ++ "$" ++ c) = Except.error PyErr.valueError :=
  ⟨checksumSplit_ok a b ha hb, checksumSplit_no_sep s hs,
   checksumSplit_two_seps a b c ha hb hc⟩

/-- C6: witness at a concrete well-formed checksum and a concrete
separator-free string. -/
theorem C6_witness :
    checksumSplit ("sha256" ++ "$" ++ "abcd") = Except.ok ("sha256", "abcd") ∧
    checksumSplit "sha256abcd" = Except.error PyErr.valueError := by
  have h := C6_split_behavior "sha256" "abcd" "x" "sha256abcd"
    (by decide) (by decide) (by decide) (by decide)
  exact ⟨h.1, h.2.1⟩

/-- C7: when the caller's scope exits normally without the pipe's reader having
run to completion, `uploadStream` raises the protocol-violation `RuntimeError`;
when the reader completed, the scope exits without error. -/
theorem C7_uploadStream_protocol (readerDone : Bool) :
    (readerDone = false →
      uploadStream readerDone =
        Except.error (PyErr.runtimeError
          "Escaped context manager without written data being read!")) ∧
    (readerDone = true → uploadStream readerDone = Except.ok ()) := by
  cases readerDone <;> simp [uploadStream]

/-- C7: witness at both reader states. -/
theorem C7_witness :
    uploadStream false =
      Except.error (PyErr.runtimeError
        "Escaped context manager without written data being read!") ∧
    uploadStream true = Except.ok () :=
  ⟨(C7_uploadStream_protocol false).1 rfl, (C7_uploadStream_protocol true).2 rfl⟩

/-- C8: `copyTo` on a record with neither inlined content nor a remote version
fails with the defensive assertion failure (the spec's EmptyOrCorruptRecord);
with inlined content it writes those bytes directly to the destination; with
only a remote version it issues a server-side copy sourced at that version. -/
theorem C8_copyTo_cases (f : AWSFile) :
    (f.content = none → (f.version = none ∨ f.version = some "") →
      copyTo f = Except.error PyErr.assertionError) ∧
    (∀ c, f.content = some c →
      copyTo f = Except.ok (CopyToAction.putInline c)) ∧
    (∀ v, f.content = none → f.version = some v → ¬(v = "") →
      copyTo f = Except.ok (CopyToAction.serverSideCopy v)) := by
  refine ⟨?_, ?_, ?_⟩
  · intro hc hv
    rcases hv with hv | hv <;> simp [copyTo, hc, hv]
  · intro c hc
    simp [copyTo, hc]
  · intro v hc hv hv'
    simp [copyTo, hc, hv, hv']

/-- Fixture for the C8 witness: a record with inlined content. -/
def c8bFile : AWSFile := { baseFile with content := some [3, 4] }

/-- Fixture for the C8 witness: a record with only a remote version. -/
def c8cFile : AWSFile := { baseFile with version := some "v2" }

/-- C8: witness at an empty record, an inlined record and a remote record. -/
theorem C8_witness :
    copyTo baseFile = Except.error PyErr.assertionError ∧
    copyTo c8bFile = Except.ok (CopyToAction.putInline [3, 4]) ∧
    copyTo c8cFile = Except.ok (CopyToAction.serverSideCopy "v2") :=
  ⟨(C8_copyTo_cases baseFile).1 rfl (Or.inl rfl),
   (C8_copyTo_cases c8bFile).2.1 [3, 4] rfl,
   (C8_copyTo_cases c8cFile).2.2 "v2" rfl rfl (by decide)⟩

/-- C9: `getSize` returns the length of the inlined content whenever it is set
(0 for a zero-length inline byte sequence), else the remote object's declared
content length when a truthy remote version is set, else 0; being a total
function of the record and the declared length, it raises no error. -/
theorem C9_getSize_cases (f : AWSFile) (len : Nat) :
    (∀ c, f.content = some c → getSize f len = c.length) ∧
    (f.content = some [] → getSize f len = 0) ∧
    (f.content = none → ∀ v, f.version = some v → ¬(v = "") →
      getSize f len = len) ∧
    (f.content = none → (f.version = none ∨ f.version = some "") →
      getSize f len = 0) := by
  refine ⟨?_, ?_, ?_, ?_⟩
  · intro c hc
    simp [getSize, hc]
  · intro hc
    simp [getSize, hc]
  · intro hc v hv hv'
    simp [getSize, hc, hv, hv']
  · intro hc hv
    rcases hv with hv | hv <;> simp [getSize, hc, hv]

/-- Fixture for the C9 witness: zero-length inlined content. -/
def c9aFile : AWSFile := { baseFile with content := some [] }

/-- Fixture for the C9 witness: remote version only. -/
def c9bFile : AWSFile := { baseFile with version := some "v1" }

/-- C9: witness — empty inline content reports size 0, a remote record reports
the declared length, and a record with neither reports 0. -/
theorem C9_witness :
    getSize c9aFile 42 = 0 ∧ getSize c9bFile 42 = 42 ∧
    getSize baseFile 42 = 0 :=
  ⟨(C9_getSize_cases c9aFile 42).2.1 rfl,
   (C9_getSize_cases c9bFile 42).2.2.1 rfl "v1" rfl (by decide),
   (C9_getSize_cases baseFile 42).2.2.2 rfl (Or.inl rfl)⟩

/-- C10: with inlined content and a recorded checksum, `downloadStream` with
verification interposes the hashing transform over the inline bytes just as for
remote bytes, so a mismatching recorded checksum fails with the checksum error
at end of stream — while `download` on the very same record succeeds with no
verification, since its verification applies only on the remote-version
path. -/
theorem C10_inline_stream_verifies (hasher : HashFn) (f : AWSFile) (c : Bytes)
    (cs alg dg : String)
    (hc : f.content = some c) (hcs : f.checksum = some cs) (hcs' : ¬(cs = ""))
    (hsplit : checksumSplit cs = Except.ok (alg, dg))
    (hmis : ¬(alg ++ "$" ++ hasher alg c = cs))
    (remoteChunks : List Bytes) (remoteData : Bytes) (p : String) :
    downloadStream hasher f remoteChunks none true =
      Except.ok { delivered := c,
                  result := Except.error (PyErr.checksumError ""),
                  verified := true } ∧
    download hasher f remoteData p true = Except.ok c := by
  constructor
  · rw [downloadStream_inline_verified hasher f c cs remoteChunks none hc hcs hcs']
    by_cases h0 : c = []
    · subst h0
      rw [if_pos rfl]
      rw [transform_none_eq hasher cs alg dg [] hsplit (by simp)]
      simp [hmis]
    · rw [if_neg h0]
      rw [transform_none_eq hasher cs alg dg [c] hsplit (by simpa using h0)]
      simp [hmis]
  · simp [download, hc]

/-- Fixture for the C10 witness: inlined content with a mismatching recorded
checksum. -/
def c10File : AWSFile :=
  { baseFile with content := some [1], checksum := some "sha256$zz" }

/-- C10: witness — the verified stream over the inline record fails with the
checksum error while the direct download of the same record succeeds. -/
theorem C10_witness :
    downloadStream demoHash c10File [[9]] none true =
      Except.ok { delivered := [1],
                  result := Except.error (PyErr.checksumError ""),
                  verified := true } ∧
    download demoHash c10File [9] "p" true = Except.ok [1] := by
  have h := C10_inline_stream_verifies demoHash c10File [1] "sha256$zz"
    "sha256" "zz" rfl rfl (by decide) rfl (by decide) [[9]] [9] "p"
  exact ⟨h.1, h.2⟩

end Toil
